import Mathlib

/-!
A shallow embedding of the CHIP-8 virtual-machine core of the `chippie`
repository (`src/chip8/bus.rs`, `src/chip8/gpu.rs`, `src/chip8/cpu.rs`),
together with theorems checking the natural-language specification
against it.

Conventions of the embedding:
* Machine integers (`u8`, `u16`, `u64`) are `Nat` with explicit reductions
  `% 256`, `% 65536`, `% 2 ^ 64` at the points where the Rust code wraps.
  Arithmetic follows release-mode semantics: wraparound on overflow, and
  shift amounts on `u64` reduced `% 64`.
* Fixed-size arrays (`[u8; 4096]`, `[u64; 32]`, `[bool; 16]`, `[u8; 16]`)
  and `Vec<u16>` are `List`s; indexing uses `List.getD` and in-place
  update uses `List.set`.  The call stack's `push`/`pop` work at the head
  of the list.
* Panics are modelled by `Option`: `CPU.tick` returns `none` exactly where
  the Rust code panics (`stack.pop().unwrap()` on an empty stack, and the
  wildcard dispatch arm).
* The random byte drawn by opcode `CXNN` (`rand::random()`) is passed in
  as the `salt` argument; a batch takes a stream of salts.
-/

set_option maxRecDepth 40000

set_option maxHeartbeats 1000000

namespace Chippie

/-- `MEMORY_SIZE` from `bus.rs`: 4 KiB of addressable memory. -/
def MEMORY_SIZE : Nat := 0x1000

/-- `FONT_BYTES` from `bus.rs`: the 80-byte font table, 5 bytes per glyph. -/
def FONT_BYTES : List Nat :=
  [0xF0, 0x90, 0x90, 0x90, 0xF0,
   0x20, 0x60, 0x20, 0x20, 0x70,
   0xF0, 0x10, 0xF0, 0x80, 0xF0,
   0xF0, 0x10, 0xF0, 0x10, 0xF0,
   0x90, 0x90, 0xF0, 0x10, 0x10,
   0xF0, 0x80, 0xF0, 0x10, 0xF0,
   0xF0, 0x80, 0xF0, 0x90, 0xF0,
   0xF0, 0x10, 0x20, 0x40, 0x40,
   0xF0, 0x90, 0xF0, 0x90, 0xF0,
   0xF0, 0x90, 0xF0, 0x10, 0xF0,
   0xF0, 0x90, 0xF0, 0x90, 0x90,
   0xE0, 0x90, 0xE0, 0x90, 0xE0,
   0xF0, 0x80, 0x80, 0x80, 0xF0,
   0xE0, 0x90, 0x90, 0x90, 0xE0,
   0xF0, 0x80, 0xF0, 0x80, 0xF0,
   0xF0, 0x80, 0xF0, 0x80, 0x80]

/-- The display of `gpu.rs`: 32 rows, each one a `u64` bitmask. -/
structure GPU where
  buffer : List Nat
deriving DecidableEq, Repr

/-- `GPU::new` from `gpu.rs` (the two colours are presentation-only and
are not part of the embedding). -/
def GPU.new : GPU := ⟨List.replicate 32 0⟩

/-- `GPU::clear` from `gpu.rs`: zero all 32 rows. -/
def GPU.clear (_g : GPU) : GPU := ⟨List.replicate 32 0⟩

/-- `GPU::draw_sprite_line` from `gpu.rs`.  `u64` shifts follow Rust
release-mode semantics: the shift amount is reduced `% 64` and the
shifted value is truncated to 64 bits. -/
def GPU.draw_sprite_line (g : GPU) (x y sprite_data : Nat) : GPU × Bool :=
  if y > 31 then (g, false)
  else
    let mask := if x ≤ 56 then (sprite_data <<< (56 - x)) % 2 ^ 64
                else sprite_data >>> ((x - 56) % 64)
    let collision := decide (0 < g.buffer.getD y 0 &&& mask)
    (⟨g.buffer.set y (g.buffer.getD y 0 ^^^ mask)⟩, collision)

/-- The memory bus of `bus.rs`. -/
structure Bus where
  memory : List Nat
  gpu : GPU
deriving DecidableEq, Repr

/-- `Bus::load_font` from `bus.rs`: copy the 80 font bytes into
`memory[0x50..0xa0]`. -/
def Bus.load_font (b : Bus) : Bus :=
  { b with memory := b.memory.take 0x50 ++ FONT_BYTES ++ b.memory.drop 0xa0 }

/-- `Bus::new` from `bus.rs`: zeroed memory, fresh GPU, then font loaded. -/
def Bus.new : Bus :=
  Bus.load_font { memory := List.replicate MEMORY_SIZE 0, gpu := GPU.new }

/-- `Bus::read_byte` from `bus.rs`: the address is reduced modulo
`MEMORY_SIZE` before the array access. -/
def Bus.read_byte (b : Bus) (address : Nat) : Nat :=
  b.memory.getD (address % MEMORY_SIZE) 0

/-- `Bus::save_byte` from `bus.rs`: the address is reduced modulo
`MEMORY_SIZE` before the array store. -/
def Bus.save_byte (b : Bus) (address data : Nat) : Bus :=
  { b with memory := b.memory.set (address % MEMORY_SIZE) data }

/-- `Bus::display` from `bus.rs`: read the sprite byte at `address` and
draw it as one sprite row. -/
def Bus.display (b : Bus) (x_coord y_coord address : Nat) : Bus × Bool :=
  let sprite_data := b.read_byte address
  let p := b.gpu.draw_sprite_line x_coord y_coord sprite_data
  ({ b with gpu := p.1 }, p.2)

/-- `N!` from `chip8.rs`: lowest nibble of an opcode. -/
def opN (opcode : Nat) : Nat := opcode &&& 0x000f

/-- `NN!` from `chip8.rs`: lowest byte of an opcode. -/
def opNN (opcode : Nat) : Nat := opcode &&& 0x00ff

/-- `NNN!` from `chip8.rs`: lowest 12 bits of an opcode. -/
def opNNN (opcode : Nat) : Nat := opcode &&& 0x0fff

/-- `X!` from `chip8.rs`: bits 8-11 of an opcode. -/
def opX (opcode : Nat) : Nat := (opcode &&& 0x0f00) >>> 8

/-- `Y!` from `chip8.rs`: bits 4-7 of an opcode. -/
def opY (opcode : Nat) : Nat := (opcode &&& 0x00f0) >>> 4

/-- The interpreter state of `cpu.rs`. -/
structure CPU where
  bus : Bus
  keys_down : List Bool
  pc : Nat
  i : Nat
  stack : List Nat
  delay_timer : Nat
  sound_timer : Nat
  v : List Nat
  key_pressed : Option Nat
deriving DecidableEq, Repr

/-- `CPU::new` from `cpu.rs`: fresh bus, no keys, `pc = 0x200`, zeroed
registers and timers — and then a single byte `0x12` written at `0x200`. -/
def CPU.new : CPU :=
  let cpu : CPU :=
    { bus := Bus.new
      keys_down := List.replicate 16 false
      pc := 0x200
      i := 0
      stack := []
      delay_timer := 0
      sound_timer := 0
      v := List.replicate 16 0
      key_pressed := none }
  { cpu with bus := cpu.bus.save_byte 0x200 0x12 }

/-- `CPU::get_op` from `cpu.rs`: big-endian 16-bit opcode at `pc`. -/
def CPU.get_op (s : CPU) : Nat :=
  (s.bus.read_byte s.pc) <<< 8 ||| s.bus.read_byte ((s.pc + 1) % 65536)

/-- `CPU::decr_timers` from `cpu.rs`: each timer decrements by 1 if
positive, otherwise stays 0. -/
def CPU.decr_timers (s : CPU) : CPU :=
  let s := if s.delay_timer > 0 then { s with delay_timer := s.delay_timer - 1 } else s
  if s.sound_timer > 0 then { s with sound_timer := s.sound_timer - 1 } else s

/-- The loop body of `CPU::op_DXYN`: draw `count` sprite rows starting at
memory address `address`, at screen row `y_coord`, setting `VF` to 1 on
any collision. -/
def CPU.dxyn_loop (x_coord : Nat) : Nat → Nat → Nat → CPU → CPU
  | 0, _, _, s => s
  | Nat.succ k, address, y_coord, s =>
    let p := s.bus.display x_coord y_coord address
    let s := { s with bus := p.1, v := if p.2 then s.v.set 0xf 1 else s.v }
    CPU.dxyn_loop x_coord k ((address + 1) % 65536) ((y_coord + 1) % 256) s

/-- `CPU::op_DXYN` from `cpu.rs`: `VX`/`VY` are masked into screen bounds,
`VF` cleared, then the rows `i .. i + n` are drawn.  The empty-range
behaviour of `i..i+n` after `u16` wraparound is kept (`Nat` subtraction
gives count 0 when the end wraps below `i`). -/
def CPU.op_DXYN (s : CPU) (x y n : Nat) : CPU :=
  let x_coord := s.v.getD x 0 &&& 0x3f
  let y_coord := s.v.getD y 0 &&& 0x1f
  let s := { s with v := s.v.set 0xf 0 }
  CPU.dxyn_loop x_coord ((s.i + n) % 65536 - s.i) s.i y_coord s

/-- `CPU::op_FX0A` from `cpu.rs`: the blocking key-wait state machine.
`pc` is first rewound by 2; with no latched key the input latch is
scanned for the first key that is down; with a latched key that is still
down the sound timer is set to 4; once the latched key is up *and* the
sound timer has run out, `pc` is re-advanced, `VX` receives the key index
and the latch is cleared. -/
def CPU.op_FX0A (s : CPU) (x : Nat) : CPU :=
  let s := { s with pc := (s.pc + 65536 - 2) % 65536 }
  match s.key_pressed with
  | none => { s with key_pressed := s.keys_down.findIdx? (fun v => v) }
  | some key =>
    if s.keys_down.getD key false then
      { s with sound_timer := 4 }
    else if s.sound_timer = 0 then
      { s with pc := (s.pc + 2) % 65536
               v := s.v.set x key
               key_pressed := none }
    else s

/-- The `FX55` loop of `cpu.rs`: store `V0..VX` to memory at `i`,
incrementing `i` after each store. -/
def CPU.fx55_go : Nat → Nat → CPU → CPU
  | 0, _, s => s
  | Nat.succ k, n, s =>
    CPU.fx55_go k (n + 1)
      { s with bus := s.bus.save_byte s.i (s.v.getD n 0)
               i := (s.i + 1) % 65536 }

/-- The `FX65` loop of `cpu.rs`: load `V0..VX` from memory at `i`,
incrementing `i` after each load. -/
def CPU.fx65_go : Nat → Nat → CPU → CPU
  | 0, _, s => s
  | Nat.succ k, n, s =>
    CPU.fx65_go k (n + 1)
      { s with v := s.v.set n (s.bus.read_byte s.i)
               i := (s.i + 1) % 65536 }

/-- `CPU::tick` from `cpu.rs`: one fetch-decode-execute cycle.  Returns
`none` exactly where the Rust code panics: popping an empty call stack
on `00EE`, and the wildcard arm of the dispatch `match`. -/
def CPU.tick (salt : Nat) (s : CPU) : Option CPU :=
  let opcode := s.get_op
  let s := { s with pc := (s.pc + 2) % 65536 }
  if opcode &&& 0xf000 = 0x0000 then
    if opcode &&& 0xfff = 0x0e0 then
      some { s with bus := { s.bus with gpu := s.bus.gpu.clear } }
    else if opcode &&& 0xfff = 0x0ee then
      match s.stack with
      | [] => none
      | p :: rest => some { s with pc := p, stack := rest }
    else some s
  else if opcode &&& 0xf000 = 0x1000 then
    some { s with pc := opNNN opcode }
  else if opcode &&& 0xf000 = 0x2000 then
    some { s with stack := s.pc :: s.stack, pc := opNNN opcode }
  else if opcode &&& 0xf000 = 0x3000 then
    some (if s.v.getD (opX opcode) 0 = opNN opcode then
            { s with pc := (s.pc + 2) % 65536 } else s)
  else if opcode &&& 0xf000 = 0x4000 then
    some (if s.v.getD (opX opcode) 0 ≠ opNN opcode then
            { s with pc := (s.pc + 2) % 65536 } else s)
  else if opcode &&& 0xf000 = 0x5000 then
    some (if s.v.getD (opX opcode) 0 = s.v.getD (opY opcode) 0 then
            { s with pc := (s.pc + 2) % 65536 } else s)
  else if opcode &&& 0xf000 = 0x6000 then
    some { s with v := s.v.set (opX opcode) (opNN opcode) }
  else if opcode &&& 0xf000 = 0x7000 then
    some { s with v := s.v.set (opX opcode)
                    ((s.v.getD (opX opcode) 0 + opNN opcode) % 256) }
  else if opcode &&& 0xf000 = 0x8000 then
    let x := opX opcode
    let y := opY opcode
    if opcode &&& 0x000f = 0x0 then
      some { s with v := s.v.set x (s.v.getD y 0) }
    else if opcode &&& 0x000f = 0x1 then
      some { s with v := (s.v.set x (s.v.getD x 0 ||| s.v.getD y 0)).set 0xf 0 }
    else if opcode &&& 0x000f = 0x2 then
      some { s with v := (s.v.set x (s.v.getD x 0 &&& s.v.getD y 0)).set 0xf 0 }
    else if opcode &&& 0x000f = 0x3 then
      some { s with v := (s.v.set x (s.v.getD x 0 ^^^ s.v.getD y 0)).set 0xf 0 }
    else if opcode &&& 0x000f = 0x4 then
      let result := (s.v.getD x 0 + s.v.getD y 0) % 256
      let carry : Nat := if 256 ≤ s.v.getD x 0 + s.v.getD y 0 then 1 else 0
      some { s with v := (s.v.set x result).set 0xf carry }
    else if opcode &&& 0x000f = 0x5 then
      let flag : Nat := if s.v.getD x 0 ≥ s.v.getD y 0 then 1 else 0
      some { s with v := (s.v.set x
              ((s.v.getD x 0 + 256 - s.v.getD y 0) % 256)).set 0xf flag }
    else if opcode &&& 0x000f = 0x6 then
      let v1 := s.v.set x (s.v.getD y 0)
      let flag := v1.getD x 0 &&& 0x1
      let v2 := v1.set x (v1.getD x 0 >>> 1)
      some { s with v := v2.set 0xf flag }
    else if opcode &&& 0x000f = 0x7 then
      let flag : Nat := if s.v.getD y 0 ≥ s.v.getD x 0 then 1 else 0
      some { s with v := (s.v.set x
              ((s.v.getD y 0 + 256 - s.v.getD x 0) % 256)).set 0xf flag }
    else if opcode &&& 0x000f = 0xe then
      let v1 := s.v.set x (s.v.getD y 0)
      let flag := v1.getD x 0 >>> 7
      let v2 := v1.set x ((v1.getD x 0 <<< 1) % 256)
      some { s with v := v2.set 0xf flag }
    else some s
  else if opcode &&& 0xf000 = 0x9000 then
    some (if s.v.getD (opX opcode) 0 ≠ s.v.getD (opY opcode) 0 then
            { s with pc := (s.pc + 2) % 65536 } else s)
  else if opcode &&& 0xf000 = 0xa000 then
    some { s with i := opNNN opcode }
  else if opcode &&& 0xf000 = 0xb000 then
    some { s with pc := (opNNN opcode + s.v.getD (opX opcode) 0) % 65536 }
  else if opcode &&& 0xf000 = 0xc000 then
    some { s with v := s.v.set (opX opcode) (salt &&& opNN opcode) }
  else if opcode &&& 0xf000 = 0xd000 then
    some (s.op_DXYN (opX opcode) (opY opcode) (opN opcode))
  else if opcode &&& 0xf000 = 0xe000 then
    if opcode &&& 0xff = 0x9e then
      some (if s.keys_down.getD (s.v.getD (opX opcode) 0 % s.keys_down.length) false then
              { s with pc := (s.pc + 2) % 65536 } else s)
    else if opcode &&& 0xff = 0xa1 then
      some (if ! s.keys_down.getD (s.v.getD (opX opcode) 0 % s.keys_down.length) false then
              { s with pc := (s.pc + 2) % 65536 } else s)
    else some s
  else if opcode &&& 0xf000 = 0xf000 then
    let x := (opcode &&& 0x0f00) >>> 8
    if opcode &&& 0xff = 0x07 then
      some { s with v := s.v.set x s.delay_timer }
    else if opcode &&& 0xff = 0x0a then
      some (s.op_FX0A x)
    else if opcode &&& 0xff = 0x15 then
      some { s with delay_timer := s.v.getD x 0 }
    else if opcode &&& 0xff = 0x18 then
      some { s with sound_timer := s.v.getD x 0 }
    else if opcode &&& 0xff = 0x1e then
      some { s with i := (s.i + s.v.getD x 0) % 65536 }
    else if opcode &&& 0xff = 0x29 then
      some { s with i := 0x0050 + (s.v.getD x 0 &&& 0xf) }
    else if opcode &&& 0xff = 0x33 then
      let vx := s.v.getD x 0
      some { s with bus := ((s.bus.save_byte s.i (vx / 100)).save_byte
              (s.i + 1) (vx / 10 % 10)).save_byte (s.i + 2) (vx % 10) }
    else if opcode &&& 0xff = 0x55 then
      some (CPU.fx55_go (x + 1) 0 s)
    else if opcode &&& 0xff = 0x65 then
      some (CPU.fx65_go (x + 1) 0 s)
    else some s
  else none

/-- The loop of `CPU::ticks` from `cpu.rs`: `n` single cycles, threading
the salt stream; `none` as soon as a cycle panics. -/
def CPU.tickN : Nat → (Nat → Nat) → CPU → Option CPU
  | 0, _, s => some s
  | Nat.succ n, salts, s =>
    match CPU.tick (salts n) s with
    | none => none
    | some s1 => CPU.tickN n salts s1

/-- `CPU::ticks` from `cpu.rs`: run `n` cycles, then `decr_timers` once. -/
def CPU.ticks (n : Nat) (salts : Nat → Nat) (s : CPU) : Option CPU :=
  (CPU.tickN n salts s).map CPU.decr_timers

/-! ### Helper lemmas about lists and bit operations -/

theorem getD_set_self (l : List Nat) (i a : Nat) (h : i < l.length) :
    (l.set i a).getD i 0 = a := by
  simp [List.getD_eq_getElem?_getD, List.getElem?_set_self h]

theorem getD_set_ne (l : List Nat) (i j a : Nat) (h : i ≠ j) :
    (l.set i a).getD j 0 = l.getD j 0 := by
  simp [List.getD_eq_getElem?_getD, List.getElem?_set_ne h]

theorem set_getD_self (l : List Nat) (i : Nat) (h : i < l.length) :
    l.set i (l.getD i 0) = l := by
  induction l generalizing i with
  | nil => simp at h
  | cons hd tl ih =>
    cases i with
    | zero => simp
    | succ n =>
      simp only [List.length_cons] at h
      simp only [List.getD_cons_succ, List.set_cons_succ, List.cons.injEq, true_and]
      exact ih n (by omega)

theorem xor_and_self_of_disjoint (a b : Nat) (h : a &&& b = 0) :
    (a ^^^ b) &&& b = b := by
  apply Nat.eq_of_testBit_eq
  intro j
  have h' := congrArg (fun t => Nat.testBit t j) h
  simp only [Nat.testBit_and, Nat.zero_testBit] at h'
  simp only [Nat.testBit_and, Nat.testBit_xor]
  cases hb : b.testBit j <;> cases ha : a.testBit j <;> simp_all

theorem opX_lt (opcode : Nat) : opX opcode < 16 := by
  have h : opcode &&& 0x0f00 ≤ 0x0f00 := Nat.and_le_right
  have h2 : (2 : Nat) ^ 8 = 256 := by norm_num
  unfold opX
  rw [Nat.shiftRight_eq_div_pow, h2]
  omega

theorem opY_lt (opcode : Nat) : opY opcode < 16 := by
  have h : opcode &&& 0x00f0 ≤ 0x00f0 := Nat.and_le_right
  have h2 : (2 : Nat) ^ 4 = 16 := by norm_num
  unfold opY
  rw [Nat.shiftRight_eq_div_pow, h2]
  omega

theorem and_f000_eq (a : Nat) (ha : a < 65536) :
    a &&& 0xf000 = a / 4096 * 4096 := by
  obtain ⟨q, r, hq, hr, rfl⟩ : ∃ q r, q < 16 ∧ r < 2 ^ 12 ∧ a = 2 ^ 12 * q + r :=
    ⟨a / 4096, a % 4096, by omega, by norm_num; omega, by norm_num; omega⟩
  have hdiv : (2 ^ 12 * q + r) / 4096 = q := by norm_num at hr ⊢; omega
  rw [hdiv]
  apply Nat.eq_of_testBit_eq
  intro j
  rw [Nat.testBit_and, show (0xf000 : Nat) = 2 ^ 12 * 15 by norm_num,
      show q * 4096 = 2 ^ 12 * q by ring,
      Nat.testBit_mul_pow_two_add _ hr, Nat.testBit_mul_pow_two,
      Nat.testBit_mul_pow_two]
  by_cases hj : j < 12
  · simp [hj, Nat.not_le_of_lt hj]
  · by_cases hj2 : j < 16
    · have h15 : Nat.testBit 15 (j - 12) = true := by interval_cases j <;> decide
      simp [hj, h15, Nat.le_of_not_lt hj]
    · have hqb : Nat.testBit q (j - 12) = false :=
        Nat.testBit_lt_two_pow (lt_of_lt_of_le hq
          (by calc (16 : Nat) = 2 ^ 4 := by norm_num
                _ ≤ 2 ^ (j - 12) := Nat.pow_le_pow_right (by omega) (by omega)))
      simp [hj, hqb, Nat.le_of_not_lt hj]

theorem shl_mask_lt (x b : Nat) (hb : b < 256) (hx : x ≤ 56) :
    b <<< (56 - x) < 2 ^ 64 := by
  rw [Nat.shiftLeft_eq]
  calc b * 2 ^ (56 - x) ≤ 255 * 2 ^ 56 :=
        Nat.mul_le_mul (by omega) (Nat.pow_le_pow_right (by omega) (by omega))
    _ < 2 ^ 64 := by norm_num

/-! ### C1 — the FX29 font-glyph address -/

/-- Modelled from the spec: the FX29 rule of section 4.4,
`I = 0x50 + (VX AND 0xF) × 5` (5 bytes per glyph). -/
def spec_FX29_target (vx : Nat) : Nat := 0x50 + (vx &&& 0xf) * 5

/-- A machine with opcode `F029` at `pc = 0x200` and `V0 = 0xA`. -/
def fx29_state : CPU :=
  { CPU.new with
      bus := (CPU.new.bus.save_byte 0x200 0xF0).save_byte 0x201 0x29
      v := (List.replicate 16 0).set 0 0xA }

/-- C1: the code's FX29 arm computes `I = 0x50 + (VX AND 0xF)` without the
×5 glyph scaling required by the spec: with `VX = 0xA` one cycle yields
`I = 0x5A`, while the spec's font-glyph rule demands `0x82`. -/
theorem C1_fx29_code_eval :
    (CPU.tick 0 fx29_state).map CPU.i = some 0x5A ∧
    spec_FX29_target 0xA = 0x82 ∧ (0x5A : Nat) ≠ 0x82 :=
  ⟨by decide, by decide, by decide⟩

/-! ### C9 — totality of memory accesses -/

/-- C9: for every address and byte, `read_byte` and `save_byte` reduce the
address modulo `MEMORY_SIZE = 4096` before the array access, so on a
4096-byte memory both accesses are in bounds and total. -/
theorem C9_memory_access_total :
    ∀ (b : Bus) (address data : Nat), b.memory.length = 4096 →
      address % MEMORY_SIZE < 4096 ∧
      b.memory[address % MEMORY_SIZE]? = some (b.read_byte address) ∧
      (b.save_byte address data).memory[address % MEMORY_SIZE]? = some data ∧
      (b.save_byte address data).memory.length = 4096 := by
  intro b a d h
  have h0 : (0 : Nat) < MEMORY_SIZE := by decide
  have hMS : MEMORY_SIZE = 4096 := rfl
  have h4 : a % MEMORY_SIZE < 4096 := by rw [hMS] at *; omega
  have hlt : a % MEMORY_SIZE < b.memory.length := by omega
  refine ⟨h4, ?_, ?_, ?_⟩
  · rw [List.getElem?_eq_getElem hlt]
    simp [Bus.read_byte, List.getD_eq_getElem?_getD, List.getElem?_eq_getElem hlt]
  · simp [Bus.save_byte, List.getElem?_set_self (by simpa using hlt)]
  · simp [Bus.save_byte, h]

theorem bus_new_memory_length : Bus.new.memory.length = 4096 := by
  have hf : FONT_BYTES.length = 80 := by decide
  have hr : (List.replicate MEMORY_SIZE (0 : Nat)).length = 4096 := by
    rw [List.length_replicate, MEMORY_SIZE]
  simp only [Bus.new, Bus.load_font, List.length_append, List.length_take,
    List.length_drop, hf, hr]
  omega

/-- Witness for C9 at the freshly constructed bus and a concrete access. -/
theorem C9_memory_access_total_witness :
    Bus.new.memory.length = 4096 ∧
    (0x1234 % MEMORY_SIZE < 4096 ∧
     Bus.new.memory[0x1234 % MEMORY_SIZE]? = some (Bus.new.read_byte 0x1234) ∧
     (Bus.new.save_byte 0x1234 0xAB).memory[0x1234 % MEMORY_SIZE]? = some 0xAB ∧
     (Bus.new.save_byte 0x1234 0xAB).memory.length = 4096) :=
  ⟨bus_new_memory_length,
   C9_memory_access_total Bus.new 0x1234 0xAB bus_new_memory_length⟩

/-! ### C5 — one timer decrement per batch -/

/-- C5: `ticks n` runs `n` cycles and then applies `decr_timers` exactly
once: each timer goes down by exactly 1, floored at 0 (`Nat` subtraction),
independent of the batch size `n`; in particular, whenever the `n` cycles
left a timer unchanged, the whole batch decrements it by exactly 1, not
by `n`. -/
theorem C5_batch_timer_decrement :
    ∀ (n : Nat) (salts : Nat → Nat) (s s1 : CPU),
      CPU.tickN n salts s = some s1 →
      CPU.ticks n salts s = some (CPU.decr_timers s1) ∧
      (CPU.decr_timers s1).delay_timer = s1.delay_timer - 1 ∧
      (CPU.decr_timers s1).sound_timer = s1.sound_timer - 1 ∧
      (s1.delay_timer = s.delay_timer →
        (CPU.decr_timers s1).delay_timer = s.delay_timer - 1) ∧
      (s1.sound_timer = s.sound_timer →
        (CPU.decr_timers s1).sound_timer = s.sound_timer - 1) := by
  intro n salts s s1 h
  have hd : (CPU.decr_timers s1).delay_timer = s1.delay_timer - 1 := by
    by_cases h1 : 0 < s1.delay_timer <;> by_cases h2 : 0 < s1.sound_timer <;>
      simp [CPU.decr_timers, h1, h2] <;> omega
  have hs : (CPU.decr_timers s1).sound_timer = s1.sound_timer - 1 := by
    by_cases h1 : 0 < s1.delay_timer <;> by_cases h2 : 0 < s1.sound_timer <;>
      simp [CPU.decr_timers, h1, h2] <;> omega
  refine ⟨?_, hd, hs, fun he => by rw [hd, he], fun he => by rw [hs, he]⟩
  unfold CPU.ticks
  rw [h]
  rfl

/-- The fresh machine with both timers made nonzero; its memory holds
`12 00` at `pc = 0x200`, the jump-to-self idle loop, so every cycle is a
`1NNN` jump that touches no timer. -/
def idle_cpu : CPU := { CPU.new with delay_timer := 7, sound_timer := 9 }

theorem tick_idle : CPU.tick 0 idle_cpu = some idle_cpu := rfl

theorem tickN_idle : ∀ n, CPU.tickN n (fun _ => 0) idle_cpu = some idle_cpu := by
  intro n
  induction n with
  | zero => rfl
  | succ n ih =>
    show (match CPU.tick 0 idle_cpu with
          | none => none
          | some s1 => CPU.tickN n (fun _ => 0) s1) = some idle_cpu
    rw [tick_idle]
    exact ih

/-- Witness for C5: a 50-cycle batch on the idle loop with timers 7 and 9
leaves `tickN` at the same state, and the batch decrements each timer by
exactly 1. -/
theorem C5_batch_timer_decrement_witness :
    CPU.tickN 50 (fun _ => 0) idle_cpu = some idle_cpu ∧
    (CPU.ticks 50 (fun _ => 0) idle_cpu = some (CPU.decr_timers idle_cpu) ∧
     (CPU.decr_timers idle_cpu).delay_timer = idle_cpu.delay_timer - 1 ∧
     (CPU.decr_timers idle_cpu).sound_timer = idle_cpu.sound_timer - 1 ∧
     (idle_cpu.delay_timer = idle_cpu.delay_timer →
       (CPU.decr_timers idle_cpu).delay_timer = idle_cpu.delay_timer - 1) ∧
     (idle_cpu.sound_timer = idle_cpu.sound_timer →
       (CPU.decr_timers idle_cpu).sound_timer = idle_cpu.sound_timer - 1)) :=
  ⟨tickN_idle 50,
   C5_batch_timer_decrement 50 (fun _ => 0) idle_cpu idle_cpu (tickN_idle 50)⟩

/-! ### C8 — drawing the same sprite row twice is an involution -/

/-- C8: at an on-screen position (`x ≤ 56`, `y < 32`), drawing a nonzero
byte over a row whose masked bits are clear reports no collision; drawing
it again reports a collision and restores the buffer exactly. -/
theorem C8_xor_involution :
    ∀ (g : GPU) (x y b : Nat), x ≤ 56 → y < 32 → b ≠ 0 → b < 256 →
      g.buffer.length = 32 →
      g.buffer.getD y 0 &&& (b <<< (56 - x)) = 0 →
      (g.draw_sprite_line x y b).2 = false ∧
      ((g.draw_sprite_line x y b).1.draw_sprite_line x y b).2 = true ∧
      ((g.draw_sprite_line x y b).1.draw_sprite_line x y b).1 = g := by
  intro g x y b hx hy hb hb2 hlen hdisj
  have hmod : (b <<< (56 - x)) % 2 ^ 64 = b <<< (56 - x) :=
    Nat.mod_eq_of_lt (shl_mask_lt x b hb2 hx)
  have hmask_ne : b <<< (56 - x) ≠ 0 := by
    rw [Nat.shiftLeft_eq]
    exact Nat.mul_ne_zero hb (Nat.pos_pow_of_pos _ (by omega)).ne'
  have hdraw1 : g.draw_sprite_line x y b =
      (⟨g.buffer.set y (g.buffer.getD y 0 ^^^ b <<< (56 - x))⟩,
        decide (0 < g.buffer.getD y 0 &&& b <<< (56 - x))) := by
    unfold GPU.draw_sprite_line
    rw [if_neg (by omega), if_pos hx, hmod]
  have hrow1 : (g.buffer.set y (g.buffer.getD y 0 ^^^ b <<< (56 - x))).getD y 0
      = g.buffer.getD y 0 ^^^ b <<< (56 - x) :=
    getD_set_self _ _ _ (by omega)
  have hdraw2 : (GPU.mk (g.buffer.set y
        (g.buffer.getD y 0 ^^^ b <<< (56 - x)))).draw_sprite_line x y b =
      (⟨(g.buffer.set y (g.buffer.getD y 0 ^^^ b <<< (56 - x))).set y
          ((g.buffer.getD y 0 ^^^ b <<< (56 - x)) ^^^ b <<< (56 - x))⟩,
        decide (0 < (g.buffer.getD y 0 ^^^ b <<< (56 - x)) &&& b <<< (56 - x))) := by
    unfold GPU.draw_sprite_line
    rw [if_neg (by omega), if_pos hx, hmod]
    simp only [hrow1]
  rw [hdraw1]
  refine ⟨by simp only [hdisj]; rfl, ?_, ?_⟩
  · rw [hdraw2]
    simp only [xor_and_self_of_disjoint _ _ hdisj]
    simp [Nat.pos_of_ne_zero hmask_ne]
  · rw [hdraw2]
    simp only [List.set_set, Nat.xor_assoc, Nat.xor_self, Nat.xor_zero]
    rw [set_getD_self _ _ (by omega)]

/-- Witness for C8 at a concrete position and byte. -/
theorem C8_xor_involution_witness :
    ((8 : Nat) ≤ 56 ∧ (3 : Nat) < 32 ∧ (0xA5 : Nat) ≠ 0 ∧ (0xA5 : Nat) < 256 ∧
     GPU.new.buffer.length = 32 ∧
     GPU.new.buffer.getD 3 0 &&& (0xA5 <<< (56 - 8)) = 0) ∧
    (GPU.new.draw_sprite_line 8 3 0xA5).2 = false ∧
    ((GPU.new.draw_sprite_line 8 3 0xA5).1.draw_sprite_line 8 3 0xA5).2 = true ∧
    ((GPU.new.draw_sprite_line 8 3 0xA5).1.draw_sprite_line 8 3 0xA5).1 = GPU.new :=
  ⟨⟨by decide, by decide, by decide, by decide, by decide, by decide⟩,
   C8_xor_involution GPU.new 8 3 0xA5 (by decide) (by decide) (by decide)
     (by decide) (by decide) (by decide)⟩

/-! ### C6 — characterisation of `draw_sprite_line` -/

/-- Modelled from the spec: the horizontal mask of section 4.2 — the
sprite byte shifted left by `56 - x` when `x ≤ 56`, shifted right by
`x - 56` otherwise (bits past column 63 silently dropped). -/
def spec_mask (x b : Nat) : Nat :=
  if x ≤ 56 then b <<< (56 - x) else b >>> (x - 56)

/-- C6 counterexample: at `x = 120` the code's `u64` right shift reduces
the shift amount `% 64` (release-mode semantics), so the byte is *not*
dropped: drawing byte 1 at `(120, 0)` flips the rightmost pixel of row 0,
while the claim's plain shift `1 >>> 64 = 0` demands an unchanged row. -/
theorem C6_shift_mask_cex :
    GPU.new.draw_sprite_line 120 0 1 ≠
      (⟨GPU.new.buffer.set 0 (GPU.new.buffer.getD 0 0 ^^^ spec_mask 120 1)⟩,
        decide (0 < GPU.new.buffer.getD 0 0 &&& spec_mask 120 1)) := by
  decide

/-- C6 (amended): for `x < 120` the claimed characterisation is exact —
a row `y ≥ 32` is clipped (buffer unchanged, no collision); on-screen,
the spec's shifted mask is XORed into row `y` and the collision flag is
true iff the old row ANDed with the mask is nonzero.  For `x ≥ 120` the
code's shift amount wraps `% 64` and the claim fails (see the
counterexample). -/
theorem C6_draw_sprite_line_amended :
    (∀ (g : GPU) (x y b : Nat), x < 120 → b < 256 → 32 ≤ y →
       g.draw_sprite_line x y b = (g, false)) ∧
    (∀ (g : GPU) (x y b : Nat), x < 120 → b < 256 → y < 32 →
       g.draw_sprite_line x y b =
         (⟨g.buffer.set y (g.buffer.getD y 0 ^^^ spec_mask x b)⟩,
           decide (0 < g.buffer.getD y 0 &&& spec_mask x b))) := by
  constructor
  · intro g x y b _ _ hy
    unfold GPU.draw_sprite_line
    rw [if_pos (by omega)]
  · intro g x y b hx hb hy
    unfold GPU.draw_sprite_line spec_mask
    rw [if_neg (by omega)]
    by_cases hx56 : x ≤ 56
    · rw [if_pos hx56, if_pos hx56, Nat.mod_eq_of_lt (shl_mask_lt x b hb hx56)]
    · rw [if_neg hx56, if_neg hx56, Nat.mod_eq_of_lt (show x - 56 < 64 by omega)]

/-- Witness for C6 at a clipped row and at an on-screen draw. -/
theorem C6_draw_sprite_line_amended_witness :
    ((10 : Nat) < 120 ∧ (0xFF : Nat) < 256 ∧ (32 : Nat) ≤ 40 ∧
      GPU.new.draw_sprite_line 10 40 0xFF = (GPU.new, false)) ∧
    ((60 : Nat) < 120 ∧ (0xFF : Nat) < 256 ∧ (2 : Nat) < 32 ∧
      GPU.new.draw_sprite_line 60 2 0xFF =
        (⟨GPU.new.buffer.set 2 (GPU.new.buffer.getD 2 0 ^^^ spec_mask 60 0xFF)⟩,
          decide (0 < GPU.new.buffer.getD 2 0 &&& spec_mask 60 0xFF))) :=
  ⟨⟨by decide, by decide, by decide,
    C6_draw_sprite_line_amended.1 GPU.new 10 40 0xFF (by decide) (by decide)
      (by decide)⟩,
   ⟨by decide, by decide, by decide,
    C6_draw_sprite_line_amended.2 GPU.new 60 2 0xFF (by decide) (by decide)
      (by decide)⟩⟩

/-! ### C2 — the FX0A blocking key-wait -/

/-- A machine with opcode `F00A` at `pc = 0x200`, key 5 latched, no key
down, and the debounce tone still sounding (`sound_timer = 4`). -/
def fx0a_state : CPU :=
  { CPU.new with
      bus := (CPU.new.bus.save_byte 0x200 0xF0).save_byte 0x201 0x0A
      key_pressed := some 5
      sound_timer := 4 }

/-- C2 counterexample: with key 5 latched and observed released but the
sound timer nonzero, the FX0A cycle leaves the machine entirely unchanged
— `pc` stays rewound and the latch stays set — contradicting the claim
that the first cycle observing the release advances `pc`, writes `VX` and
clears the latch. -/
theorem C2_latched_release_cex :
    fx0a_state.key_pressed = some 5 ∧
    fx0a_state.keys_down.getD 5 false = false ∧
    CPU.tick 0 fx0a_state = some fx0a_state ∧
    (CPU.tick 0 fx0a_state).map CPU.pc ≠ some ((fx0a_state.pc + 2) % 65536) ∧
    (CPU.tick 0 fx0a_state).map CPU.key_pressed ≠ some none :=
  ⟨rfl, by decide, rfl, by decide, by decide⟩

/-- C2 (amended): the FX0A completion fires on the first cycle in which
the latched key is observed released *and* the sound timer has reached
zero — then `pc` is advanced past the instruction, `VX` receives the key
index and the latch is cleared.  With no key down and no latch, the
machine is a fixed point of `tick`, so `pc` stays rewound across any
number of repeated cycles. -/
theorem C2_fx0a_amended :
    (∀ (salt : Nat) (s : CPU) (k : Nat),
      s.get_op &&& 0xf000 = 0xf000 →
      s.get_op &&& 0xff = 0x0a →
      s.key_pressed = some k →
      s.keys_down.getD k false = false →
      s.sound_timer = 0 →
      CPU.tick salt s = some { s with pc := (s.pc + 2) % 65536
                                      v := s.v.set ((s.get_op &&& 0x0f00) >>> 8) k
                                      key_pressed := none }) ∧
    (∀ (s : CPU),
      s.get_op &&& 0xf000 = 0xf000 →
      s.get_op &&& 0xff = 0x0a →
      s.key_pressed = none →
      (∀ b ∈ s.keys_down, b = false) →
      s.pc < 65536 →
      (∀ salt, CPU.tick salt s = some s) ∧
      (∀ n salts, CPU.tickN n salts s = some s)) := by
  constructor
  · intro salt s k hA hF hkp hkd hst
    simp [CPU.tick, CPU.op_FX0A, hA, hF, hkp, hkd, hst]
    cases s
    simp_all [CPU.mk.injEq]
    omega
  · intro s hA hF hkp hkeys hpc
    have hfind : s.keys_down.findIdx? (fun v => v) = none := by
      rw [List.findIdx?_eq_none_iff]
      intro x hx
      simp [hkeys x hx]
    have h1 : ∀ salt, CPU.tick salt s = some s := by
      intro salt
      simp [CPU.tick, CPU.op_FX0A, hA, hF, hkp, hfind]
      cases s
      simp_all [CPU.mk.injEq]
      omega
    refine ⟨h1, ?_⟩
    intro n salts
    induction n with
    | zero => rfl
    | succ n ih =>
      show (match CPU.tick (salts n) s with
            | none => none
            | some s1 => CPU.tickN n salts s1) = some s
      rw [h1]
      exact ih

/-- A machine with opcode `F30A` at `pc = 0x200`, key 7 latched and
released, and the debounce tone finished. -/
def fx0a_done_state : CPU :=
  { CPU.new with
      bus := (CPU.new.bus.save_byte 0x200 0xF3).save_byte 0x201 0x0A
      key_pressed := some 7 }

/-- Witness for C2: the completion cycle at a concrete state, and the
no-key fixed point on the fresh FX0A state. -/
theorem C2_fx0a_amended_witness :
    (fx0a_done_state.get_op &&& 0xf000 = 0xf000 ∧
     fx0a_done_state.get_op &&& 0xff = 0x0a ∧
     fx0a_done_state.key_pressed = some 7 ∧
     fx0a_done_state.keys_down.getD 7 false = false ∧
     fx0a_done_state.sound_timer = 0 ∧
     CPU.tick 0 fx0a_done_state =
       some { fx0a_done_state with
                pc := (fx0a_done_state.pc + 2) % 65536
                v := fx0a_done_state.v.set
                  ((fx0a_done_state.get_op &&& 0x0f00) >>> 8) 7
                key_pressed := none }) ∧
    (∀ salt, CPU.tick salt { fx0a_done_state with key_pressed := none } =
       some { fx0a_done_state with key_pressed := none }) ∧
    (∀ n salts, CPU.tickN n salts { fx0a_done_state with key_pressed := none } =
       some { fx0a_done_state with key_pressed := none }) :=
  ⟨⟨by decide, by decide, rfl, by decide, rfl,
    C2_fx0a_amended.1 0 fx0a_done_state 7 (by decide) (by decide) rfl
      (by decide) rfl⟩,
   C2_fx0a_amended.2 { fx0a_done_state with key_pressed := none }
     (by decide) (by decide) rfl (by decide) (by decide)⟩

/-! ### C7 — the chosen quirk variants: 8XY6, 8XYE, BNNN -/

/-- C7: the interpreter implements the documented quirk variants exactly:
`8XY6` loads `VY`, shifts right, `VF` = low bit of `VY`; `8XYE` loads
`VY`, shifts left, `VF` = high bit of `VY`; `BNNN` jumps to `NNN + VX`
(the X-indexed variant, not `NNN + V0`).  The `VX` clauses carry the side
condition `X ≠ 0xF`, since for `X = 0xF` the flag write overwrites `VX`
itself (see C10). -/
theorem C7_quirk_variants :
    (∀ (salt : Nat) (s : CPU),
      s.get_op &&& 0xf000 = 0x8000 →
      s.get_op &&& 0x000f = 0x6 →
      s.v.length = 16 →
      opX s.get_op ≠ 0xf →
      (CPU.tick salt s).map (fun t => (t.v.getD (opX s.get_op) 0, t.v.getD 0xf 0)) =
        some (s.v.getD (opY s.get_op) 0 >>> 1, s.v.getD (opY s.get_op) 0 &&& 0x1)) ∧
    (∀ (salt : Nat) (s : CPU),
      s.get_op &&& 0xf000 = 0x8000 →
      s.get_op &&& 0x000f = 0xe →
      s.v.length = 16 →
      opX s.get_op ≠ 0xf →
      (CPU.tick salt s).map (fun t => (t.v.getD (opX s.get_op) 0, t.v.getD 0xf 0)) =
        some ((s.v.getD (opY s.get_op) 0 <<< 1) % 256, s.v.getD (opY s.get_op) 0 >>> 7)) ∧
    (∀ (salt : Nat) (s : CPU),
      s.get_op &&& 0xf000 = 0xb000 →
      s.v.getD (opX s.get_op) 0 < 256 →
      (CPU.tick salt s).map CPU.pc =
        some (opNNN s.get_op + s.v.getD (opX s.get_op) 0)) := by
  refine ⟨?_, ?_, ?_⟩
  · intro salt s hA h6 hlen hx
    have hxl : opX s.get_op < s.v.length := by have := opX_lt s.get_op; omega
    simp only [CPU.tick, hA, h6]
    norm_num
    rw [List.getElem?_set_self hxl, Option.getD_some]
    constructor
    · rw [List.getElem?_set_ne (Ne.symm hx), List.getElem?_set_self hxl,
        Option.getD_some]
    · rw [List.getElem?_set_self (by rw [List.length_set, hlen]; omega),
        Option.getD_some]
  · intro salt s hA hE hlen hx
    have hxl : opX s.get_op < s.v.length := by have := opX_lt s.get_op; omega
    simp only [CPU.tick, hA, hE]
    norm_num
    rw [List.getElem?_set_self hxl, Option.getD_some]
    constructor
    · rw [List.getElem?_set_ne (Ne.symm hx), List.getElem?_set_self hxl,
        Option.getD_some]
    · rw [List.getElem?_set_self (by rw [List.length_set, hlen]; omega),
        Option.getD_some]
  · intro salt s hA hvx
    have hnnn : opNNN s.get_op ≤ 0xfff := Nat.and_le_right
    rw [List.getD_eq_getElem?_getD] at hvx
    simp only [CPU.tick, hA]
    norm_num
    omega

/-- A machine with opcode `8126` (`V1 = V2 >> 1`) at `pc` and `V2 = 0x85`. -/
def shift6_state : CPU :=
  { CPU.new with
      bus := (CPU.new.bus.save_byte 0x200 0x81).save_byte 0x201 0x26
      v := (List.replicate 16 0).set 2 0x85 }

/-- A machine with opcode `812E` (`V1 = V2 << 1`) at `pc` and `V2 = 0x85`. -/
def shiftE_state : CPU :=
  { CPU.new with
      bus := (CPU.new.bus.save_byte 0x200 0x81).save_byte 0x201 0x2E
      v := (List.replicate 16 0).set 2 0x85 }

/-- A machine with opcode `B234` (`pc = 0x234 + V2`) at `pc` and `V2 = 0x85`. -/
def jumpB_state : CPU :=
  { CPU.new with
      bus := (CPU.new.bus.save_byte 0x200 0xB2).save_byte 0x201 0x34
      v := (List.replicate 16 0).set 2 0x85 }

/-- Witness for C7 at three concrete machines. -/
theorem C7_quirk_variants_witness :
    (shift6_state.get_op &&& 0xf000 = 0x8000 ∧
     shift6_state.get_op &&& 0x000f = 0x6 ∧
     shift6_state.v.length = 16 ∧
     opX shift6_state.get_op ≠ 0xf ∧
     (CPU.tick 0 shift6_state).map
        (fun t => (t.v.getD (opX shift6_state.get_op) 0, t.v.getD 0xf 0)) =
       some (shift6_state.v.getD (opY shift6_state.get_op) 0 >>> 1,
         shift6_state.v.getD (opY shift6_state.get_op) 0 &&& 0x1)) ∧
    (shiftE_state.get_op &&& 0xf000 = 0x8000 ∧
     shiftE_state.get_op &&& 0x000f = 0xe ∧
     shiftE_state.v.length = 16 ∧
     opX shiftE_state.get_op ≠ 0xf ∧
     (CPU.tick 0 shiftE_state).map
        (fun t => (t.v.getD (opX shiftE_state.get_op) 0, t.v.getD 0xf 0)) =
       some ((shiftE_state.v.getD (opY shiftE_state.get_op) 0 <<< 1) % 256,
         shiftE_state.v.getD (opY shiftE_state.get_op) 0 >>> 7)) ∧
    (jumpB_state.get_op &&& 0xf000 = 0xb000 ∧
     jumpB_state.v.getD (opX jumpB_state.get_op) 0 < 256 ∧
     (CPU.tick 0 jumpB_state).map CPU.pc =
       some (opNNN jumpB_state.get_op +
         jumpB_state.v.getD (opX jumpB_state.get_op) 0)) :=
  ⟨⟨by decide, by decide, by decide, by decide,
    C7_quirk_variants.1 0 shift6_state (by decide) (by decide) (by decide)
      (by decide)⟩,
   ⟨by decide, by decide, by decide, by decide,
    C7_quirk_variants.2.1 0 shiftE_state (by decide) (by decide) (by decide)
      (by decide)⟩,
   ⟨by decide, by decide,
    C7_quirk_variants.2.2 0 jumpB_state (by decide) (by decide)⟩⟩

/-! ### C10 — the flag write lands last when X = 0xF -/

/-- C10: in each flag-setting ALU opcode the flag is computed from the
operand values and written to `VF` after the result is stored in `VX`;
hence with `X = 0xF` the final value of `VF` is the carry/borrow/shifted
bit computed from the *original* operands, not the arithmetic result. -/
theorem C10_vf_flag_last :
    (∀ (salt : Nat) (s : CPU),
      s.get_op &&& 0xf000 = 0x8000 → s.get_op &&& 0x0f00 = 0x0f00 →
      s.get_op &&& 0x000f = 0x4 → s.v.length = 16 →
      (CPU.tick salt s).map (fun t => t.v.getD 0xf 0) =
        some (if 256 ≤ s.v.getD 0xf 0 + s.v.getD (opY s.get_op) 0 then 1 else 0)) ∧
    (∀ (salt : Nat) (s : CPU),
      s.get_op &&& 0xf000 = 0x8000 → s.get_op &&& 0x0f00 = 0x0f00 →
      s.get_op &&& 0x000f = 0x5 → s.v.length = 16 →
      (CPU.tick salt s).map (fun t => t.v.getD 0xf 0) =
        some (if s.v.getD 0xf 0 ≥ s.v.getD (opY s.get_op) 0 then 1 else 0)) ∧
    (∀ (salt : Nat) (s : CPU),
      s.get_op &&& 0xf000 = 0x8000 → s.get_op &&& 0x0f00 = 0x0f00 →
      s.get_op &&& 0x000f = 0x6 → s.v.length = 16 →
      (CPU.tick salt s).map (fun t => t.v.getD 0xf 0) =
        some (s.v.getD (opY s.get_op) 0 &&& 0x1)) ∧
    (∀ (salt : Nat) (s : CPU),
      s.get_op &&& 0xf000 = 0x8000 → s.get_op &&& 0x0f00 = 0x0f00 →
      s.get_op &&& 0x000f = 0x7 → s.v.length = 16 →
      (CPU.tick salt s).map (fun t => t.v.getD 0xf 0) =
        some (if s.v.getD (opY s.get_op) 0 ≥ s.v.getD 0xf 0 then 1 else 0)) ∧
    (∀ (salt : Nat) (s : CPU),
      s.get_op &&& 0xf000 = 0x8000 → s.get_op &&& 0x0f00 = 0x0f00 →
      s.get_op &&& 0x000f = 0xe → s.v.length = 16 →
      (CPU.tick salt s).map (fun t => t.v.getD 0xf 0) =
        some (s.v.getD (opY s.get_op) 0 >>> 7)) := by
  refine ⟨?_, ?_, ?_, ?_, ?_⟩ <;>
    (intro salt s hA hX hsub hlen
     have h15 : (0xf : Nat) < s.v.length := by omega
     have hsh : (0x0f00 : Nat) >>> 8 = 15 := by
       norm_num [Nat.shiftRight_eq_div_pow]
     simp only [CPU.tick, opX, hA, hX, hsub, hsh]
     norm_num
     simp only [List.getElem?_set_self h15, Option.getD_some])

/-- A machine with opcode `8F24` at `pc`, `VF = 0x90`, `V2 = 0x85`. -/
def alu4_state : CPU :=
  { CPU.new with
      bus := (CPU.new.bus.save_byte 0x200 0x8F).save_byte 0x201 0x24
      v := ((List.replicate 16 0).set 2 0x85).set 0xf 0x90 }

/-- The same machine as `alu4_state` with the opcode's low byte replaced. -/
def alu_state (lo : Nat) : CPU :=
  { alu4_state with bus := alu4_state.bus.save_byte 0x201 lo }

/-- Witness for C10 at five concrete machines, one per ALU opcode. -/
theorem C10_vf_flag_last_witness :
    ((alu_state 0x24).get_op &&& 0xf000 = 0x8000 ∧
     (alu_state 0x24).get_op &&& 0x0f00 = 0x0f00 ∧
     (alu_state 0x24).get_op &&& 0x000f = 0x4 ∧
     (alu_state 0x24).v.length = 16 ∧
     (CPU.tick 0 (alu_state 0x24)).map (fun t => t.v.getD 0xf 0) =
       some (if 256 ≤ (alu_state 0x24).v.getD 0xf 0 +
           (alu_state 0x24).v.getD (opY (alu_state 0x24).get_op) 0 then 1 else 0)) ∧
    ((CPU.tick 0 (alu_state 0x25)).map (fun t => t.v.getD 0xf 0) =
       some (if (alu_state 0x25).v.getD 0xf 0 ≥
           (alu_state 0x25).v.getD (opY (alu_state 0x25).get_op) 0 then 1 else 0)) ∧
    ((CPU.tick 0 (alu_state 0x26)).map (fun t => t.v.getD 0xf 0) =
       some ((alu_state 0x26).v.getD (opY (alu_state 0x26).get_op) 0 &&& 0x1)) ∧
    ((CPU.tick 0 (alu_state 0x27)).map (fun t => t.v.getD 0xf 0) =
       some (if (alu_state 0x27).v.getD (opY (alu_state 0x27).get_op) 0 ≥
           (alu_state 0x27).v.getD 0xf 0 then 1 else 0)) ∧
    ((CPU.tick 0 (alu_state 0x2E)).map (fun t => t.v.getD 0xf 0) =
       some ((alu_state 0x2E).v.getD (opY (alu_state 0x2E).get_op) 0 >>> 7)) :=
  ⟨⟨by decide, by decide, by decide, by decide,
    C10_vf_flag_last.1 0 (alu_state 0x24) (by decide) (by decide) (by decide)
      (by decide)⟩,
   C10_vf_flag_last.2.1 0 (alu_state 0x25) (by decide) (by decide) (by decide)
     (by decide),
   C10_vf_flag_last.2.2.1 0 (alu_state 0x26) (by decide) (by decide) (by decide)
     (by decide),
   C10_vf_flag_last.2.2.2.1 0 (alu_state 0x27) (by decide) (by decide) (by decide)
     (by decide),
   C10_vf_flag_last.2.2.2.2 0 (alu_state 0x2E) (by decide) (by decide) (by decide)
     (by decide)⟩

/-! ### C3 — the freshly instantiated machine -/

theorem getD_append_left (l1 l2 : List Nat) (j : Nat) (h : j < l1.length) :
    (l1 ++ l2).getD j 0 = l1.getD j 0 := by
  simp [List.getD_eq_getElem?_getD, List.getElem?_append_left h]

theorem getD_append_right (l1 l2 : List Nat) (j : Nat) (h : l1.length ≤ j) :
    (l1 ++ l2).getD j 0 = l2.getD (j - l1.length) 0 := by
  simp [List.getD_eq_getElem?_getD, List.getElem?_append_right h]

theorem getD_replicate_zero (n j : Nat) :
    (List.replicate n (0 : Nat)).getD j 0 = 0 := by
  rw [List.getD_eq_getElem?_getD, List.getElem?_replicate]
  split <;> rfl

theorem bus_new_memory_eq :
    Bus.new.memory =
      List.replicate 0x50 0 ++ FONT_BYTES ++ List.replicate 0xF60 0 := by
  show (List.replicate MEMORY_SIZE (0 : Nat)).take 0x50 ++ FONT_BYTES ++
      (List.replicate MEMORY_SIZE (0 : Nat)).drop 0xa0 = _
  rw [List.take_replicate, List.drop_replicate]
  norm_num [MEMORY_SIZE]

/-- The fresh machine's memory, byte by byte: font bytes in
`0x50..0xA0`, the byte `0x12` at `0x200`, zero elsewhere. -/
theorem cpu_new_read (a : Nat) (ha : a < 4096) :
    CPU.new.bus.read_byte a =
      if 0x50 ≤ a ∧ a < 0xA0 then FONT_BYTES.getD (a - 0x50) 0
      else if a = 0x200 then 0x12 else 0 := by
  have hfl : FONT_BYTES.length = 80 := by decide
  have hmod : a % MEMORY_SIZE = a := Nat.mod_eq_of_lt (by rw [MEMORY_SIZE]; omega)
  have hread : CPU.new.bus.read_byte a =
      (Bus.new.memory.set 0x200 0x12).getD a 0 := by
    show (Bus.new.memory.set (0x200 % MEMORY_SIZE) 0x12).getD (a % MEMORY_SIZE) 0 = _
    rw [hmod]
    rfl
  rw [hread]
  by_cases h200 : a = 0x200
  · subst h200
    rw [getD_set_self _ _ _ (by rw [bus_new_memory_length]; omega)]
    norm_num
  · rw [getD_set_ne _ _ _ _ (Ne.symm h200), bus_new_memory_eq]
    by_cases h1 : a < 0x50
    · rw [getD_append_left _ _ _ (by simp [List.length_replicate]; omega),
        getD_append_left _ _ _ (by simp [List.length_replicate]; omega),
        getD_replicate_zero]
      rw [if_neg (by omega), if_neg h200]
    · by_cases h2 : a < 0xA0
      · rw [getD_append_left _ _ _ (by simp [List.length_replicate, hfl]; omega),
          getD_append_right _ _ _ (by simp [List.length_replicate]; omega)]
        simp only [List.length_replicate]
        rw [if_pos ⟨by omega, h2⟩]
      · rw [getD_append_right _ _ _ (by simp [List.length_replicate, hfl]; omega),
          getD_replicate_zero]
        rw [if_neg (by omega), if_neg h200]

/-- C3 counterexample: the byte at `0x200` of a fresh machine is `0x12`
(the jam-jump written by `CPU::new`), so memory outside the font region
is not all zero. -/
theorem C3_memory_not_all_zero_cex :
    ¬ (∀ a, a < 4096 → (a < 0x50 ∨ 0xA0 ≤ a) →
        CPU.new.bus.read_byte a = 0) := by
  intro h
  have h1 := h 0x200 (by omega) (Or.inr (by omega))
  have h2 : CPU.new.bus.read_byte 0x200 = 0x12 := by
    rw [cpu_new_read 0x200 (by omega)]
    norm_num
  omega

/-- C3 (amended): a fresh machine has zero registers, `pc = 0x200`, an
empty stack, zero timers, a cleared display, the font table in
`0x50..0xA0` — and all other memory zero *except* the single byte `0x12`
written at `0x200`. -/
theorem C3_reset_state_amended :
    (∀ a, a < 4096 → ¬ (0x50 ≤ a ∧ a < 0xA0) → a ≠ 0x200 →
       CPU.new.bus.read_byte a = 0) ∧
    CPU.new.bus.read_byte 0x200 = 0x12 ∧
    (∀ a, 0x50 ≤ a → a < 0xA0 →
       CPU.new.bus.read_byte a = FONT_BYTES.getD (a - 0x50) 0) ∧
    (∀ j, j < 16 → CPU.new.v.getD j 0 = 0) ∧
    CPU.new.i = 0 ∧ CPU.new.pc = 0x200 ∧ CPU.new.stack = [] ∧
    CPU.new.delay_timer = 0 ∧ CPU.new.sound_timer = 0 ∧
    (∀ r, r < 32 → CPU.new.bus.gpu.buffer.getD r 0 = 0) := by
  refine ⟨?_, ?_, ?_, ?_, rfl, rfl, rfl, rfl, rfl, ?_⟩
  · intro a ha hfont h200
    rw [cpu_new_read a ha, if_neg hfont, if_neg h200]
  · rw [cpu_new_read 0x200 (by omega)]
    norm_num
  · intro a h1 h2
    rw [cpu_new_read a (by omega), if_pos ⟨h1, h2⟩]
  · intro j _
    show (List.replicate 16 (0 : Nat)).getD j 0 = 0
    exact getD_replicate_zero _ _
  · intro r _
    show (List.replicate 32 (0 : Nat)).getD r 0 = 0
    exact getD_replicate_zero _ _

/-- Witness for C3 at concrete addresses and indices. -/
theorem C3_reset_state_amended_witness :
    ((0x300 : Nat) < 4096 ∧ ¬ (0x50 ≤ (0x300 : Nat) ∧ (0x300 : Nat) < 0xA0) ∧
      (0x300 : Nat) ≠ 0x200 ∧ CPU.new.bus.read_byte 0x300 = 0) ∧
    ((0x50 : Nat) ≤ 0x55 ∧ (0x55 : Nat) < 0xA0 ∧
      CPU.new.bus.read_byte 0x55 = FONT_BYTES.getD (0x55 - 0x50) 0) ∧
    ((3 : Nat) < 16 ∧ CPU.new.v.getD 3 0 = 0) ∧
    ((5 : Nat) < 32 ∧ CPU.new.bus.gpu.buffer.getD 5 0 = 0) :=
  ⟨⟨by decide, by decide, by decide,
    C3_reset_state_amended.1 0x300 (by decide) (by decide) (by decide)⟩,
   ⟨by decide, by decide,
    C3_reset_state_amended.2.2.1 0x55 (by decide) (by decide)⟩,
   ⟨by decide, C3_reset_state_amended.2.2.2.1 3 (by decide)⟩,
   ⟨by decide, C3_reset_state_amended.2.2.2.2.2.2.2.2.2 5 (by decide)⟩⟩

/-! ### C4 — behaviour outside the dispatch table -/

/-- Modelled from the spec: the opcode bit-patterns covered by the
dispatch table of section 4.4. -/
def coveredOpcode (op : Nat) : Prop :=
  (op &&& 0xf000 = 0x0000 ∧ (op &&& 0xfff = 0x0e0 ∨ op &&& 0xfff = 0x0ee)) ∨
  op &&& 0xf000 = 0x1000 ∨ op &&& 0xf000 = 0x2000 ∨
  op &&& 0xf000 = 0x3000 ∨ op &&& 0xf000 = 0x4000 ∨
  (op &&& 0xf000 = 0x5000 ∧ op &&& 0x000f = 0x0) ∨
  op &&& 0xf000 = 0x6000 ∨ op &&& 0xf000 = 0x7000 ∨
  (op &&& 0xf000 = 0x8000 ∧ (op &&& 0x000f = 0x0 ∨ op &&& 0x000f = 0x1 ∨
    op &&& 0x000f = 0x2 ∨ op &&& 0x000f = 0x3 ∨ op &&& 0x000f = 0x4 ∨
    op &&& 0x000f = 0x5 ∨ op &&& 0x000f = 0x6 ∨ op &&& 0x000f = 0x7 ∨
    op &&& 0x000f = 0xe)) ∨
  (op &&& 0xf000 = 0x9000 ∧ op &&& 0x000f = 0x0) ∨
  op &&& 0xf000 = 0xa000 ∨ op &&& 0xf000 = 0xb000 ∨
  op &&& 0xf000 = 0xc000 ∨ op &&& 0xf000 = 0xd000 ∨
  (op &&& 0xf000 = 0xe000 ∧ (op &&& 0xff = 0x9e ∨ op &&& 0xff = 0xa1)) ∨
  (op &&& 0xf000 = 0xf000 ∧ (op &&& 0xff = 0x07 ∨ op &&& 0xff = 0x0a ∨
    op &&& 0xff = 0x15 ∨ op &&& 0xff = 0x18 ∨ op &&& 0xff = 0x1e ∨
    op &&& 0xff = 0x29 ∨ op &&& 0xff = 0x33 ∨ op &&& 0xff = 0x55 ∨
    op &&& 0xff = 0x65))

instance : DecidablePred coveredOpcode := fun op => by
  unfold coveredOpcode
  infer_instance

theorem ite_some_ne_none {c : Prop} [Decidable c] {a b : Option CPU}
    (ha : a ≠ none) (hb : b ≠ none) : (if c then a else b) ≠ none := by
  split
  · exact ha
  · exact hb

/-- A machine with opcode `5011` at `pc = 0x200` (trailing nibble 1, not
in the dispatch table) and `V0 = V1 = 0`. -/
def skip5_state : CPU :=
  { CPU.new with bus := (CPU.new.bus.save_byte 0x200 0x50).save_byte 0x201 0x11 }

/-- C4 counterexample: opcode `5011` is outside the dispatch table, yet
the code's `0x5000` arm ignores the trailing nibble and executes the
`5XY0` skip: with `V0 = V1` the cycle advances `pc` by 4, not by the
claimed no-op advance of 2. -/
theorem C4_5XY1_skips_cex :
    ¬ coveredOpcode skip5_state.get_op ∧
    (CPU.tick 0 skip5_state).map CPU.pc = some 0x204 ∧
    (CPU.tick 0 skip5_state).map CPU.pc ≠ some ((skip5_state.pc + 2) % 65536) :=
  ⟨by decide, by decide, by decide⟩

/-- C4 (amended): an opcode outside the dispatch table whose top nibble is
not 5 or 9 is a pure no-op apart from the `pc` advance by 2; an opcode of
the `5XY_`/`9XY_` families is executed as `5XY0`/`9XY0` regardless of its
trailing nibble; and a cycle is fatal (`none`) exactly for `00EE` with an
empty call stack. -/
theorem C4_dispatch_amended :
    (∀ (salt : Nat) (s : CPU), s.get_op < 65536 →
      ¬ coveredOpcode s.get_op →
      s.get_op &&& 0xf000 ≠ 0x5000 → s.get_op &&& 0xf000 ≠ 0x9000 →
      CPU.tick salt s = some { s with pc := (s.pc + 2) % 65536 }) ∧
    (∀ (salt : Nat) (s : CPU), s.get_op &&& 0xf000 = 0x5000 →
      CPU.tick salt s =
        some (if s.v.getD (opX s.get_op) 0 = s.v.getD (opY s.get_op) 0
          then { s with pc := (s.pc + 4) % 65536 }
          else { s with pc := (s.pc + 2) % 65536 })) ∧
    (∀ (salt : Nat) (s : CPU), s.get_op &&& 0xf000 = 0x9000 →
      CPU.tick salt s =
        some (if s.v.getD (opX s.get_op) 0 ≠ s.v.getD (opY s.get_op) 0
          then { s with pc := (s.pc + 4) % 65536 }
          else { s with pc := (s.pc + 2) % 65536 })) ∧
    (∀ (salt : Nat) (s : CPU), s.get_op < 65536 →
      (CPU.tick salt s = none ↔
        s.get_op &&& 0xf000 = 0x0000 ∧ s.get_op &&& 0xfff = 0x0ee ∧
          s.stack = [])) := by
  refine ⟨?_, ?_, ?_, ?_⟩
  · intro salt s hop hcov h5 h9
    have hA := and_f000_eq s.get_op hop
    have hcases : s.get_op / 4096 = 0 ∨ s.get_op / 4096 = 1 ∨
        s.get_op / 4096 = 2 ∨ s.get_op / 4096 = 3 ∨ s.get_op / 4096 = 4 ∨
        s.get_op / 4096 = 5 ∨ s.get_op / 4096 = 6 ∨ s.get_op / 4096 = 7 ∨
        s.get_op / 4096 = 8 ∨ s.get_op / 4096 = 9 ∨ s.get_op / 4096 = 10 ∨
        s.get_op / 4096 = 11 ∨ s.get_op / 4096 = 12 ∨ s.get_op / 4096 = 13 ∨
        s.get_op / 4096 = 14 ∨ s.get_op / 4096 = 15 := by omega
    rcases hcases with h|h|h|h|h|h|h|h|h|h|h|h|h|h|h|h <;>
      rw [h] at hA <;> norm_num at hA
    · simp only [coveredOpcode, hA] at hcov
      norm_num at hcov
      obtain ⟨hc1, hc2⟩ := hcov
      simp [CPU.tick, hA, hc1, hc2]
    · simp [coveredOpcode, hA] at hcov
    · simp [coveredOpcode, hA] at hcov
    · simp [coveredOpcode, hA] at hcov
    · simp [coveredOpcode, hA] at hcov
    · exact absurd hA h5
    · simp [coveredOpcode, hA] at hcov
    · simp [coveredOpcode, hA] at hcov
    · simp only [coveredOpcode, hA] at hcov
      norm_num at hcov
      obtain ⟨hc0, hc1, hc2, hc3, hc4, hc5, hc6, hc7, hce⟩ := hcov
      simp [CPU.tick, hA, hc0, hc1, hc2, hc3, hc4, hc5, hc6, hc7, hce]
    · exact absurd hA h9
    · simp [coveredOpcode, hA] at hcov
    · simp [coveredOpcode, hA] at hcov
    · simp [coveredOpcode, hA] at hcov
    · simp [coveredOpcode, hA] at hcov
    · simp only [coveredOpcode, hA] at hcov
      norm_num at hcov
      obtain ⟨hc1, hc2⟩ := hcov
      simp [CPU.tick, hA, hc1, hc2]
    · simp only [coveredOpcode, hA] at hcov
      norm_num at hcov
      obtain ⟨hc1, hc2, hc3, hc4, hc5, hc6, hc7, hc8, hc9⟩ := hcov
      simp [CPU.tick, hA, hc1, hc2, hc3, hc4, hc5, hc6, hc7, hc8, hc9]
  · intro salt s hA
    simp only [CPU.tick, hA]
    norm_num
  · intro salt s hA
    simp only [CPU.tick, hA]
    norm_num
  · intro salt s hop
    have hA := and_f000_eq s.get_op hop
    have hcases : s.get_op / 4096 = 0 ∨ s.get_op / 4096 = 1 ∨
        s.get_op / 4096 = 2 ∨ s.get_op / 4096 = 3 ∨ s.get_op / 4096 = 4 ∨
        s.get_op / 4096 = 5 ∨ s.get_op / 4096 = 6 ∨ s.get_op / 4096 = 7 ∨
        s.get_op / 4096 = 8 ∨ s.get_op / 4096 = 9 ∨ s.get_op / 4096 = 10 ∨
        s.get_op / 4096 = 11 ∨ s.get_op / 4096 = 12 ∨ s.get_op / 4096 = 13 ∨
        s.get_op / 4096 = 14 ∨ s.get_op / 4096 = 15 := by omega
    rcases hcases with h|h|h|h|h|h|h|h|h|h|h|h|h|h|h|h <;>
      rw [h] at hA <;> norm_num at hA
    · simp only [CPU.tick, hA]
      norm_num
      by_cases he0 : s.get_op &&& 0xfff = 0x0e0
      · simp [he0]
      · by_cases hee : s.get_op &&& 0xfff = 0x0ee
        · simp only [he0, hee, if_false, if_true]
          norm_num [hee]
          cases s.stack <;> simp
        · simp [he0, hee]
    all_goals simp only [CPU.tick, hA]
    all_goals try norm_num
    all_goals repeat (first | exact Option.some_ne_none _ | apply ite_some_ne_none)

/-- A machine with the unassigned opcode `8009` at `pc = 0x200`. -/
def unc_state : CPU :=
  { CPU.new with bus := (CPU.new.bus.save_byte 0x200 0x80).save_byte 0x201 0x09 }

/-- A machine with opcode `9015` at `pc = 0x200` and `V0 = V1 = 0`. -/
def skip9_state : CPU :=
  { CPU.new with bus := (CPU.new.bus.save_byte 0x200 0x90).save_byte 0x201 0x15 }

/-- Witness for C4 at four concrete machines. -/
theorem C4_dispatch_amended_witness :
    (unc_state.get_op < 65536 ∧ ¬ coveredOpcode unc_state.get_op ∧
     unc_state.get_op &&& 0xf000 ≠ 0x5000 ∧
     unc_state.get_op &&& 0xf000 ≠ 0x9000 ∧
     CPU.tick 0 unc_state = some { unc_state with pc := (unc_state.pc + 2) % 65536 }) ∧
    (skip5_state.get_op &&& 0xf000 = 0x5000 ∧
     CPU.tick 0 skip5_state =
       some (if skip5_state.v.getD (opX skip5_state.get_op) 0 =
           skip5_state.v.getD (opY skip5_state.get_op) 0
         then { skip5_state with pc := (skip5_state.pc + 4) % 65536 }
         else { skip5_state with pc := (skip5_state.pc + 2) % 65536 })) ∧
    (skip9_state.get_op &&& 0xf000 = 0x9000 ∧
     CPU.tick 0 skip9_state =
       some (if skip9_state.v.getD (opX skip9_state.get_op) 0 ≠
           skip9_state.v.getD (opY skip9_state.get_op) 0
         then { skip9_state with pc := (skip9_state.pc + 4) % 65536 }
         else { skip9_state with pc := (skip9_state.pc + 2) % 65536 })) ∧
    (CPU.new.get_op < 65536 ∧
     (CPU.tick 0 CPU.new = none ↔
       CPU.new.get_op &&& 0xf000 = 0x0000 ∧ CPU.new.get_op &&& 0xfff = 0x0ee ∧
         CPU.new.stack = [])) :=
  ⟨⟨by decide, by decide, by decide, by decide,
    C4_dispatch_amended.1 0 unc_state (by decide) (by decide) (by decide)
      (by decide)⟩,
   ⟨by decide, C4_dispatch_amended.2.1 0 skip5_state (by decide)⟩,
   ⟨by decide, C4_dispatch_amended.2.2.1 0 skip9_state (by decide)⟩,
   ⟨by decide, C4_dispatch_amended.2.2.2 0 CPU.new (by decide)⟩⟩

end Chippie
